import Mathlib

/-!
Shallow embedding of the MaleCare chatbot backend
(`backend/app/services/clinicaltrials_api.py`,
`backend/app/services/clinicaltrials_api_REAL.py`,
`backend/app/services/nlp.py`, `backend/app/core/state.py`,
`backend/app/routes/chat.py`) together with theorems checking the
natural-language specification against this embedding.

Conventions used throughout:
- Python `Optional[T]` values and possibly-absent dict keys are `Option T`.
- Python string operations are reimplemented on Lean strings for the ASCII
  inputs the code manipulates (`str.split()` with no argument, `str.lower()`,
  `str.title()`).
- The HTTP registry and the two BERT models are external oracles; they are
  passed in as explicit parameters describing the outcome the environment
  produces for each request.
- Python exceptions that escape a function are `Except PyErr`.
-/

/-- Python exceptions that the embedded code can let escape. -/
inductive PyErr where
  | attributeError (msg : String)
  | typeError (msg : String)
deriving DecidableEq, Repr

/-- Python `str.split()` with no argument: split on runs of whitespace,
dropping empty pieces. `acc` holds the current word, reversed. -/
def pySplitWsAux : List Char → List Char → List String
  | [], acc => if acc.isEmpty then [] else [String.mk acc.reverse]
  | c :: cs, acc =>
      if c.isWhitespace then
        if acc.isEmpty then pySplitWsAux cs []
        else String.mk acc.reverse :: pySplitWsAux cs []
      else pySplitWsAux cs (c :: acc)

/-- Python `location.strip().split()` — `strip` is subsumed by
whitespace-run splitting. -/
def pySplitWs (s : String) : List String :=
  pySplitWsAux s.data []

/-- One step of Python `str.title()`: uppercase an alphabetic character that
does not follow an alphabetic character, lowercase the rest. -/
def pyTitleStep : List Char × Bool → Char → List Char × Bool
  | (out, prevAlpha), c =>
      if c.isAlpha then
        (out ++ [if prevAlpha then c.toLower else c.toUpper], true)
      else (out ++ [c], false)

/-- Python `str.title()` restricted to the ASCII strings the code handles. -/
def pyTitle (s : String) : String :=
  String.mk (s.data.foldl pyTitleStep ([], false)).1

/-- Python `str.lower()` restricted to ASCII, implemented by structural
recursion so that it evaluates under kernel reduction (the library
`String.toLower` is position-based and does not). -/
def pyLower (s : String) : String :=
  String.mk (s.data.map Char.toLower)

/-- Python `sep.join(parts)`, structurally recursive. -/
def pyJoin (sep : String) : List String → String
  | [] => ""
  | [a] => a
  | a :: rest => a ++ sep ++ pyJoin sep rest

/-- Python `s.replace("PHASE", "Phase ")` specialised to its fixed
pattern: replace each left-to-right, non-overlapping occurrence. -/
def replacePHASEAux : List Char → List Char
  | 'P' :: 'H' :: 'A' :: 'S' :: 'E' :: rest =>
      'P' :: 'h' :: 'a' :: 's' :: 'e' :: ' ' :: replacePHASEAux rest
  | c :: rest => c :: replacePHASEAux rest
  | [] => []

/-- Python `s.replace("PHASE", "Phase ")`. -/
def pyReplacePHASE (s : String) : String :=
  String.mk (replacePHASEAux s.data)

/-- Python `s.startswith(pre)`. -/
def pyStartsWith (s pre : String) : Bool :=
  s.data.take pre.data.length = pre.data

/-- Python `s[2:]`, the label remainder after a BIO prefix. -/
def pyDrop2 (s : String) : String :=
  String.mk (s.data.drop 2)

/-- Truthiness of a Python `Optional[str]`: `None` and `""` are falsy. -/
def truthyStr : Option String → Bool
  | none => false
  | some s => s ≠ ""

/-- The fixed state-name → abbreviation table of
`format_location_for_api` (`clinicaltrials_api.py` lines 107-121). -/
def state_abbreviations : List (String × String) :=
  [("alabama", "AL"), ("alaska", "AK"), ("arizona", "AZ"), ("arkansas", "AR"),
   ("california", "CA"), ("colorado", "CO"), ("connecticut", "CT"), ("delaware", "DE"),
   ("florida", "FL"), ("georgia", "GA"), ("hawaii", "HI"), ("idaho", "ID"),
   ("illinois", "IL"), ("indiana", "IN"), ("iowa", "IA"), ("kansas", "KS"),
   ("kentucky", "KY"), ("louisiana", "LA"), ("maine", "ME"), ("maryland", "MD"),
   ("massachusetts", "MA"), ("michigan", "MI"), ("minnesota", "MN"), ("mississippi", "MS"),
   ("missouri", "MO"), ("montana", "MT"), ("nebraska", "NE"), ("nevada", "NV"),
   ("new hampshire", "NH"), ("new jersey", "NJ"), ("new mexico", "NM"), ("new york", "NY"),
   ("north carolina", "NC"), ("north dakota", "ND"), ("ohio", "OH"), ("oklahoma", "OK"),
   ("oregon", "OR"), ("pennsylvania", "PA"), ("rhode island", "RI"), ("south carolina", "SC"),
   ("south dakota", "SD"), ("tennessee", "TN"), ("texas", "TX"), ("utah", "UT"),
   ("vermont", "VT"), ("virginia", "VA"), ("washington", "WA"), ("west virginia", "WV"),
   ("wisconsin", "WI"), ("wyoming", "WY")]

/-- Python `state_abbreviations.get(state_full, default)` without the default. -/
def lookupAbbrev (key : String) : Option String :=
  (state_abbreviations.find? (fun p => p.1 = key)).map (fun p => p.2)

/-- `format_location_for_api` (`clinicaltrials_api.py` lines 92-139):
last whitespace-delimited token is the state, the rest is the city; the
state name is looked up case-insensitively, unknown tokens pass through
verbatim; fewer than two tokens returns the input unchanged. The Python
`try` never fires on a string input, so the Lean function is total. -/
def format_location_for_api (location : String) : String :=
  let parts := pySplitWs location
  if 2 ≤ parts.length then
    let lastTok := parts.getLastD ""
    let state_full := pyLower lastTok
    let city := pyJoin " " parts.dropLast
    let state_abbr := (lookupAbbrev state_full).getD lastTok
    city ++ ", " ++ state_abbr
  else location

/-- `parse_location_for_api` (`clinicaltrials_api_REAL.py` lines 89-114):
qualifier form `United States:<state>:<city>`, `None` on fewer than two
tokens. -/
def parse_location_for_api (location : String) : Option String :=
  let parts := pySplitWs location
  if 2 ≤ parts.length then
    some ("United States:" ++ parts.getLastD "" ++ ":"
          ++ pyJoin " " parts.dropLast)
  else none

/-- One entry of a study's `contactsLocationsModule.locations` list. -/
structure LocationEntry where
  facility : Option String
  city : Option String
  state : Option String
deriving DecidableEq, Repr

/-- The fields of one raw registry study that `parse_trials` reads,
flattened from the nested `protocolSection` JSON. Absent keys are `none`. -/
structure Study where
  nctId : Option String
  briefTitle : Option String
  officialTitle : Option String
  overallStatus : Option String
  phases : List String
  locations : List LocationEntry
  leadSponsorName : Option String
deriving DecidableEq, Repr

/-- The flat trial dictionary the backend returns. Parsed trials carry the
`is_nationwide` key and no `message` key; the synthetic error record of
`get_error_response` carries `message` and no `is_nationwide`. -/
structure Trial where
  nct_id : String
  title : String
  phase : String
  status : String
  location : String
  facility : String
  sponsor : String
  link : String
  is_nationwide : Option Bool
  message : Option String
deriving DecidableEq, Repr

/-- Python `identification.get("briefTitle") or identification.get("officialTitle", "Untitled Study")`:
a `None` or empty brief title falls back to the official title. -/
def studyTitle (s : Study) : String :=
  match s.briefTitle with
  | some t => if t = "" then s.officialTitle.getD "Untitled Study" else t
  | none => s.officialTitle.getD "Untitled Study"

/-- The first-listed-site location/facility extraction of `parse_trials`
(lines 178-187): fall back to the requested location unless the first site
has a non-empty city and state. -/
def studyLocation (s : Study) (requested_location : String) : String × String :=
  match s.locations.head? with
  | none => (requested_location, "Multiple Sites")
  | some first_loc =>
      let facility := first_loc.facility.getD "Unknown Facility"
      let city := first_loc.city.getD ""
      let state := first_loc.state.getD ""
      if city ≠ "" ∧ state ≠ "" then (city ++ " " ++ state, facility)
      else (requested_location, facility)

/-- The per-study body of `parse_trials` (`clinicaltrials_api.py` lines
156-207). In the typed model every field access is total, so the Python
per-record `try`/`except`-`continue` (which only fires on ill-typed JSON
values) never skips a record. -/
def parse_study (requested_location : String) (is_nationwide : Bool) (s : Study) : Trial :=
  let nct_id := s.nctId.getD "Unknown"
  let phase := match s.phases.head? with
    | some p => pyReplacePHASE p
    | none => "Not Specified"
  let locFac := studyLocation s requested_location
  { nct_id := nct_id
    title := studyTitle s
    phase := phase
    status := pyTitle (s.overallStatus.getD "Unknown")
    location := locFac.1
    facility := locFac.2
    sponsor := s.leadSponsorName.getD "Unknown Sponsor"
    link := "https://clinicaltrials.gov/study/" ++ nct_id
    is_nationwide := some is_nationwide
    message := none }

/-- `parse_trials` (`clinicaltrials_api.py` lines 142-213). -/
def parse_trials (studies : List Study) (requested_location : String)
    (is_nationwide : Bool) : List Trial :=
  studies.map (parse_study requested_location is_nationwide)

/-- `get_error_response` (`clinicaltrials_api.py` lines 216-241): one
synthetic record with the sentinel identifier and a fixed diagnostic. -/
def get_error_response (cancer_type : String) (location : String)
    (error_msg : String) : List Trial :=
  [{ nct_id := "API_ERROR"
     title := "Unable to fetch trials at this time (" ++ error_msg ++ ")"
     phase := "N/A"
     status := "API Unavailable"
     location := location
     facility := "ClinicalTrials.gov"
     sponsor := "System"
     link := "https://clinicaltrials.gov"
     is_nationwide := none
     message := some "We\x27re having trouble connecting to ClinicalTrials.gov. Please try again in a moment." }]
-- `cancer_type` is accepted but unused, matching the Python signature.

/-- The query parameters of one `GET /studies` request
(`clinicaltrials_api.py` lines 32-38 and 61-66). `locn` is `none` when the
`query.locn` key is absent (the nationwide request). -/
structure QueryParams where
  cond : String
  locn : Option String
  overallStatus : String
  pageSize : Nat
  fmt : String
deriving DecidableEq, Repr

/-- The locality-scoped parameters built at lines 32-38. -/
def scopedParams (cancer_type location : String) : QueryParams :=
  { cond := cancer_type
    locn := some (format_location_for_api location)
    overallStatus := "RECRUITING"
    pageSize := 10
    fmt := "json" }

/-- The nationwide parameters built at lines 61-66. -/
def nationwideParams (cancer_type : String) : QueryParams :=
  { cond := cancer_type
    locn := none
    overallStatus := "RECRUITING"
    pageSize := 10
    fmt := "json" }

/-- What the transport layer does with one request: a 2xx JSON body whose
`studies` key holds the given list, a timeout (`httpx.TimeoutException`),
a non-2xx status (`httpx.HTTPError` from `raise_for_status`), or any other
failure such as a malformed body (the generic `except Exception`). -/
inductive TransportOutcome where
  | ok (studies : List Study)
  | timeout
  | httpError
  | otherError
deriving DecidableEq, Repr

/-- `true` on the three failure arms of `TransportOutcome`. -/
def TransportOutcome.isFailure : TransportOutcome → Bool
  | .ok _ => false
  | _ => true

/-- The registry environment: the outcome the transport produces for each
parameter set issued during one call. -/
def Registry : Type := QueryParams → TransportOutcome

/-- Result of one `search_clinical_trials` call, together with the log of
requests issued, in order, so that theorems can speak about which queries
were sent. -/
structure SearchResult where
  trials : List Trial
  queries : List QueryParams
deriving DecidableEq, Repr

/-- Age values a slot can hold at runtime: the intake form stores an `int`,
the conversational merge stores the NER text, a `str`. -/
inductive AgeVal where
  | int (n : Int)
  | str (s : String)
deriving DecidableEq, Repr

/-- `search_clinical_trials` (`clinicaltrials_api.py` lines 8-89): scoped
query, nationwide fallback only when the scoped query parses to zero
records, and a single synthetic error record on any transport failure —
the one `try` block covers both requests, so a failing fallback request
lands in the same handlers. `stage` and `age` are accepted and ignored,
as in the source. -/
def search_clinical_trials (registry : Registry) (cancer_type : String)
    (location : String) (stage : Option String) (age : Option AgeVal) :
    SearchResult :=
  let p1 := scopedParams cancer_type location
  match registry p1 with
  | .ok studies =>
      let trials := parse_trials studies location false
      if trials.isEmpty then
        let p2 := nationwideParams cancer_type
        match registry p2 with
        | .ok studies_nationwide =>
            { trials := parse_trials studies_nationwide location true
              queries := [p1, p2] }
        | .timeout =>
            { trials := get_error_response cancer_type location "Request timed out"
              queries := [p1, p2] }
        | .httpError =>
            { trials := get_error_response cancer_type location "API unavailable"
              queries := [p1, p2] }
        | .otherError =>
            { trials := get_error_response cancer_type location "Unexpected error"
              queries := [p1, p2] }
      else { trials := trials, queries := [p1] }
  | .timeout =>
      { trials := get_error_response cancer_type location "Request timed out"
        queries := [p1] }
  | .httpError =>
      { trials := get_error_response cancer_type location "API unavailable"
        queries := [p1] }
  | .otherError =>
      { trials := get_error_response cancer_type location "Unexpected error"
        queries := [p1] }

/-- The `INTENT_LABELS` table of `nlp.py` (lines 26-30). -/
def INTENT_LABELS : List (Nat × String) :=
  [(0, "find_trials"), (1, "goodbye"), (2, "greeting")]

/-- What one model invocation does: the module-level model object is still
`None` (never loaded), inference raises, or inference succeeds with a
value. For the intent model the value is the argmax class id; for the NER
model it is the per-word `(word, BIO-label)` list that lines 139-173 of
`nlp.py` derive from the tokenizer and logits — everything up to
`word_predictions` is the ML black box. -/
inductive ModelRun (α : Type) where
  | notLoaded
  | raises
  | ok (a : α)
deriving DecidableEq, Repr

/-- `true` on the two failure arms of `ModelRun`. -/
def ModelRun.isFailure {α : Type} : ModelRun α → Bool
  | .notLoaded => true
  | .raises => true
  | .ok _ => false

/-- `predict_intent` (`nlp.py` lines 84-121): an unloaded model and a
raised inference error both fall back to the default label
`"find_trials"`; otherwise the class id is mapped through `INTENT_LABELS`
with the same default. The input text is absorbed into the oracle. -/
def predict_intent (run : ModelRun Nat) : String :=
  match run with
  | .notLoaded => "find_trials"
  | .raises => "find_trials"
  | .ok intent_id =>
      ((INTENT_LABELS.find? (fun p => p.1 = intent_id)).map (fun p => p.2)).getD "find_trials"

/-- The four-key entity dictionary built at `nlp.py` lines 176-181. -/
structure EntDict where
  cancer_type : Option String
  age : Option String
  sex : Option String
  location : Option String
deriving DecidableEq, Repr

/-- The all-`None` entity dictionary. It is also the model for the empty
dictionary the failure paths return: both read back as `None` on every
`.get` in `extract_entities`. -/
def EntDict.empty : EntDict :=
  { cancer_type := none, age := none, sex := none, location := none }

/-- `entities[entity_type] = entity_text` guarded by
`if entity_type in entities` (`nlp.py` lines 193-194). -/
def setEnt (d : EntDict) (entity_type : String) (entity_text : String) : EntDict :=
  if entity_type = "cancer_type" then { d with cancer_type := some entity_text }
  else if entity_type = "age" then { d with age := some entity_text }
  else if entity_type = "sex" then { d with sex := some entity_text }
  else if entity_type = "location" then { d with location := some entity_text }
  else d

/-- The `if current_entity and current_words:` save of the accumulated
entity (`nlp.py` lines 189-194 et al.): Python truthiness, so an empty
label remainder or an empty word list saves nothing. -/
def saveCurrent (d : EntDict) (current_entity : Option String)
    (current_words : List String) : EntDict :=
  match current_entity with
  | some ce =>
      if ce ≠ "" ∧ current_words ≠ [] then
        setEnt d (pyLower ce) (pyJoin " " current_words)
      else d
  | none => d

/-- One iteration of the BIO loop over `word_predictions`
(`nlp.py` lines 186-215). -/
def bioStep (acc : EntDict × Option String × List String)
    (wp : String × String) : EntDict × Option String × List String :=
  let (entities, current_entity, current_words) := acc
  let (word, label) := wp
  if pyStartsWith label "B-" then
    (saveCurrent entities current_entity current_words, some (pyDrop2 label), [word])
  else if pyStartsWith label "I-" ∧ truthyStr current_entity then
    match current_entity with
    | some ce =>
        if pyDrop2 label = ce then (entities, current_entity, current_words ++ [word])
        else (entities, current_entity, current_words)
    | none => (entities, current_entity, current_words)
  else
    (saveCurrent entities current_entity current_words, none, [])

/-- `predict_entities` (`nlp.py` lines 124-229): the failure paths return
the empty dictionary; success runs the BIO extraction loop over the
word-level predictions and saves the trailing entity (lines 217-222). -/
def predict_entities (run : ModelRun (List (String × String))) : EntDict :=
  match run with
  | .notLoaded => EntDict.empty
  | .raises => EntDict.empty
  | .ok word_predictions =>
      let final := word_predictions.foldl bioStep (EntDict.empty, none, [])
      saveCurrent final.1 final.2.1 final.2.2

/-- The result dictionary of `extract_entities` (`nlp.py` lines 263-273):
the `intent` key is always present; each entity key is present only when
its value is not `None` (line 273 filters the `None`s out), which `Option`
already captures. -/
structure Entities where
  intent : String
  cancer_type : Option String
  location : Option String
  age : Option String
  sex : Option String
deriving DecidableEq, Repr

/-- `extract_entities` (`nlp.py` lines 231-277). Its only parameter in the
source is `user_input`; the two oracles stand for the loaded models
applied to that input. -/
def extract_entities (intentRun : ModelRun Nat)
    (nerRun : ModelRun (List (String × String))) : Entities :=
  let entities := predict_entities nerRun
  { intent := predict_intent intentRun
    cancer_type := entities.cancer_type
    location := entities.location
    age := entities.age
    sex := entities.sex }

/-- `ConversationState` (`state.py` lines 3-12). `__init__` sets every
slot but never assigns `intake_complete`; an instance attribute that was
never assigned is absent, and reading it raises `AttributeError`.
`intake_complete = none` models the absent attribute; `some b` models an
assigned value `b`. -/
structure ConversationState where
  cancer_type : Option String
  stage : Option String
  age : Option AgeVal
  sex : Option String
  location : Option String
  comorbidities : List String
  prior_treatments : List String
  intake_complete : Option Bool
deriving DecidableEq, Repr

/-- `ConversationState()`: the result of `__init__` (`state.py` lines
5-12) — all slots `None`/empty, `intake_complete` never assigned. -/
def ConversationState.init : ConversationState :=
  { cancer_type := none
    stage := none
    age := none
    sex := none
    location := none
    comorbidities := []
    prior_treatments := []
    intake_complete := none }

/-- `ConversationState.is_complete` (`state.py` lines 14-17):
`all([cancer_type, stage, location])` under Python truthiness. -/
def ConversationState.is_complete (s : ConversationState) : Bool :=
  truthyStr s.cancer_type ∧ truthyStr s.stage ∧ truthyStr s.location

/-- The `active_states` dict, keyed by user id. Updates prepend; lookup
takes the first match, so the assoc list observes dict-update semantics. -/
def SessionStore : Type := List (String × ConversationState)

/-- `active_states.get(user_id, default)` without the default. -/
def storeGet (store : SessionStore) (user_id : String) : Option ConversationState :=
  (store.find? (fun p => p.1 = user_id)).map (fun p => p.2)

/-- `active_states[user_id] = state`. -/
def storeSet (store : SessionStore) (user_id : String)
    (state : ConversationState) : SessionStore :=
  (user_id, state) :: store

/-- The `IntakeForm` pydantic model (`chat.py` lines 12-20): every
mandatory field is a required `str` (or `int` for age) — the empty string
is accepted — and the two list fields are optional. -/
structure IntakeForm where
  user_id : String
  cancer_type : String
  stage : String
  age : Int
  sex : String
  location : String
  comorbidities : Option (List String)
  prior_treatments : Option (List String)
deriving DecidableEq, Repr

/-- The body of `/intake`, `submit_intake` (`chat.py` lines 22-46): set
every slot and `intake_complete = True` on the (fresh or existing) state,
then persist. Returns the confirmation text and the updated store. -/
def submit_intake (store : SessionStore) (intake : IntakeForm) :
    String × SessionStore :=
  let state := (storeGet store intake.user_id).getD ConversationState.init
  let state1 : ConversationState :=
    { state with
      cancer_type := some intake.cancer_type
      stage := some intake.stage
      age := some (AgeVal.int intake.age)
      sex := some intake.sex
      location := some intake.location
      comorbidities := intake.comorbidities.getD []
      prior_treatments := intake.prior_treatments.getD []
      intake_complete := some true }
  ("Thank you for sharing that information with me. How can I help you find clinical trials today?",
   storeSet store intake.user_id state1)

/-- The slot merge of `handle_message` (`chat.py` lines 78-81): every
entities key that names an existing state attribute is written through
`setattr`. The result dict holds `intent`, which names no attribute, and
the four entity keys when present; `stage` is never a key, so it is never
overwritten, and values are the NER strings (`age` becomes a `str`). -/
def merge_entities (state : ConversationState) (entities : Entities) :
    ConversationState :=
  { state with
    cancer_type := match entities.cancer_type with
      | some v => some v
      | none => state.cancer_type
    location := match entities.location with
      | some v => some v
      | none => state.location
    age := match entities.age with
      | some v => some (AgeVal.str v)
      | none => state.age
    sex := match entities.sex with
      | some v => some v
      | none => state.sex }

/-- The response payload of one dispatched message turn, plus the log of
registry requests issued (empty unless the `find_trials` branch ran) and
the state that line 106 persists. -/
structure TurnResult where
  response : String
  trials : Option (List Trial)
  queries : List QueryParams
  state : ConversationState
deriving DecidableEq, Repr

/-- Lines 78-106 of `handle_message` (`chat.py`): the slot merge, the
intent dispatch and the state persist that follow the NLU call. The
`find_trials` branch passes `state.cancer_type` and `state.location`
straight to `search_clinical_trials` with no readiness check; if either
slot is `None`, CPython raises inside the string operations of the search
path (`location.strip()` on `None` is an `AttributeError`) — a branch no
API-reachable state exercises, since intake stores strings and the merge
never writes `None`. -/
def handle_message_dispatch (registry : Registry) (entities : Entities)
    (state : ConversationState) : Except PyErr TurnResult :=
  let state1 := merge_entities state entities
  if entities.intent = "greeting" then
    .ok { response := "Hello! How can I help you find clinical trials today?"
          trials := none, queries := [], state := state1 }
  else if entities.intent = "goodbye" then
    .ok { response := "Goodbye! Feel free to return anytime you need help finding clinical trials."
          trials := none, queries := [], state := state1 }
  else if entities.intent = "find_trials" then
    match state1.cancer_type, state1.location with
    | some ct, some loc =>
        let result := search_clinical_trials registry ct loc state1.stage state1.age
        .ok { response := "Here are some " ++ ct ++ " clinical trials in " ++ loc ++ ":"
              trials := some result.trials
              queries := result.queries
              state := state1 }
    | _, _ => .error (.attributeError "NoneType slot reached the search path")
  else
    .ok { response := "I\x27m here to help you find clinical trials. What would you like to know?"
          trials := none, queries := [], state := state1 }

/-- The JSON payload `/message` returns on the paths that return. -/
structure MessageResponse where
  response : String
  requires_intake : Option Bool
  trials : Option (List Trial)
deriving DecidableEq, Repr

/-- The body of `/message`, `handle_message` (`chat.py` lines 49-108),
faithful to the source: fetch or freshly construct the state; read
`state.intake_complete` — an `AttributeError` on a fresh state, whose
`__init__` never assigns it; return the intake-required payload without
persisting when it is falsy; otherwise reach line 75, where
`nlp.extract_entities(user_input, intake_context=intake_context)` passes
a keyword argument `extract_entities(user_input)` does not accept, so
CPython raises `TypeError` before the NLU service runs — the merge and
dispatch code below that line (embedded as `handle_message_dispatch`) is
unreachable through this route. -/
def handle_message (intentRun : ModelRun Nat)
    (nerRun : ModelRun (List (String × String))) (registry : Registry)
    (store : SessionStore) (user_id : String) (message : String) :
    Except PyErr (MessageResponse × SessionStore) :=
  let state := (storeGet store user_id).getD ConversationState.init
  match state.intake_complete with
  | none => .error (.attributeError "ConversationState object has no attribute intake_complete")
  | some false =>
      .ok ({ response := "Please complete the intake form before proceeding."
             requires_intake := some true
             trials := none }, store)
  | some true =>
      .error (.typeError "extract_entities() got an unexpected keyword argument intake_context")

/-! ## Shared demonstration inputs and helper lemmas -/

/-- The end-to-end intake of the spec's test scenario. -/
def demoIntake : IntakeForm :=
  { user_id := "u1"
    cancer_type := "breast cancer"
    stage := "2"
    age := 45
    sex := "female"
    location := "Boston Massachusetts"
    comorbidities := none
    prior_treatments := none }

/-- A post-intake session state holding the demo intake's slots. -/
def demoReadyState : ConversationState :=
  { cancer_type := some "breast cancer"
    stage := some "2"
    age := some (AgeVal.int 45)
    sex := some "female"
    location := some "Boston Massachusetts"
    comorbidities := []
    prior_treatments := []
    intake_complete := some true }

/-- A registry study with every optional field absent. -/
def demoStudy : Study :=
  { nctId := none
    briefTitle := none
    officialTitle := none
    overallStatus := none
    phases := []
    locations := []
    leadSponsorName := none }

/-- Every record `parse_trials` produces carries the flag it was parsed
with. -/
theorem parse_trials_flag (studies : List Study) (loc : String) (b : Bool) :
    ∀ t ∈ parse_trials studies loc b, t.is_nationwide = some b := by
  intro t ht
  simp only [parse_trials, List.mem_map] at ht
  obtain ⟨s, _, rfl⟩ := ht
  rfl

/-- Every `search_clinical_trials` call issues the locality-scoped request
first. -/
theorem search_queries_head (registry : Registry) (cancer_type location : String)
    (stage : Option String) (age : Option AgeVal) :
    (search_clinical_trials registry cancer_type location stage age).queries.head?
      = some (scopedParams cancer_type location) := by
  unfold search_clinical_trials
  cases hreg : registry (scopedParams cancer_type location) with
  | ok studies =>
      simp only [hreg]
      by_cases h : (parse_trials studies location false).isEmpty
      · simp only [h, if_true]
        cases registry (nationwideParams cancer_type) <;> rfl
      · simp only [h, if_false]
        rfl
  | timeout => simp only [hreg]; rfl
  | httpError => simp only [hreg]; rfl
  | otherError => simp only [hreg]; rfl

/-! ## Claim C1 -/

/-- Claim C1 (code bug): a message turn on a fresh session id does not
return an intake-required response — `ConversationState.__init__` never
assigns `intake_complete`, so line 60 of `chat.py` raises
`AttributeError` on the freshly constructed state. This theorem evaluates
`handle_message` at the failing input of the repository's own
`test_message_without_intake` test, which expects a 200 response. -/
theorem handle_message_fresh_session_raises :
    handle_message ModelRun.notLoaded ModelRun.notLoaded
      (fun _ => TransportOutcome.ok []) [] "new_user_456" "Find me trials"
      = Except.error (PyErr.attributeError
          "ConversationState object has no attribute intake_complete") := rfl

/-! ## Claim C5 -/

/-- Claim C5 (code bug): `intake_complete` is not `false` from session
creation — the attribute is never initialized (`none` in the embedding,
so reading it raises) — while a single intake submission does set it to
`True` together with all mandatory slots in one update. -/
theorem intake_complete_unset_at_creation :
    ConversationState.init.intake_complete = none ∧
    ConversationState.init.intake_complete ≠ some false ∧
    (storeGet (submit_intake [] demoIntake).2 "u1").map
        ConversationState.intake_complete = some (some true) := by
  refine ⟨rfl, by decide, rfl⟩

/-! ## Claim C10 -/

/-- Claim C10 (confirmed): `search_clinical_trials` accepts `stage` and
`age` but never reads them — against the same registry behaviour, both
the issued queries and the returned records are identical for arbitrary
stage/age arguments. -/
theorem search_ignores_stage_and_age (registry : Registry)
    (cancer_type location : String) (stage1 stage2 : Option String)
    (age1 age2 : Option AgeVal) :
    search_clinical_trials registry cancer_type location stage1 age1
      = search_clinical_trials registry cancer_type location stage2 age2 := rfl

/-! ## Claim C6 -/

/-- Claim C6 (confirmed): on two or more whitespace-delimited tokens, the
normalizer returns `"<city>, <ST>"` through the fixed 50-entry
case-insensitive lookup with verbatim pass-through of unknown tokens, and
the qualifier form uses the state token as supplied; on fewer than two
tokens the abbreviated form is the input unchanged and the qualifier form
is absent. Both functions are total, so no input raises. -/
theorem location_normalization_spec (location : String) :
    state_abbreviations.length = 50 ∧
    (2 ≤ (pySplitWs location).length →
      format_location_for_api location =
        pyJoin " " (pySplitWs location).dropLast ++ ", " ++
          ((lookupAbbrev (pyLower ((pySplitWs location).getLastD ""))).getD
            ((pySplitWs location).getLastD "")) ∧
      parse_location_for_api location =
        some ("United States:" ++ (pySplitWs location).getLastD "" ++ ":" ++
              pyJoin " " (pySplitWs location).dropLast)) ∧
    ((pySplitWs location).length < 2 →
      format_location_for_api location = location ∧
      parse_location_for_api location = none) := by
  refine ⟨by rfl, ?_, ?_⟩
  · intro h
    constructor
    · simp only [format_location_for_api, if_pos h]
    · simp only [parse_location_for_api, if_pos h]
  · intro h
    have h2 : ¬ 2 ≤ (pySplitWs location).length := by omega
    constructor
    · simp only [format_location_for_api, if_neg h2]
    · simp only [parse_location_for_api, if_neg h2]

/-- Witness for C6 at the spec's worked example. -/
theorem location_normalization_spec_witness :
    format_location_for_api "Boston Massachusetts" = "Boston, MA" ∧
    parse_location_for_api "Boston Massachusetts"
      = some "United States:Massachusetts:Boston" := by
  have h := (location_normalization_spec "Boston Massachusetts").2.1 (by decide)
  exact ⟨h.1.trans (by decide), h.2.trans (by decide)⟩

/-! ## Claim C7 -/

/-- Claim C7 counterexample: normalization is not idempotent on its own
output — re-normalizing `"Boston, MA"` token-splits the city as
`"Boston,"` and yields `"Boston,, MA"`. -/
theorem format_location_not_idempotent :
    format_location_for_api (format_location_for_api "Boston Massachusetts")
      ≠ format_location_for_api "Boston Massachusetts" := by decide

/-- Claim C7 (corrected): on a well-formed two-token input the first
normalization abbreviates, but the second run treats the embedded comma as
part of the city token, misses the lookup on the abbreviation, and emits a
duplicated comma — the two runs always differ. -/
theorem format_location_second_run_duplicates_comma
    (x city stateTok abbr : String)
    (h1 : pySplitWs x = [city, stateTok])
    (h2 : lookupAbbrev (pyLower stateTok) = some abbr)
    (h3 : pySplitWs (city ++ ", " ++ abbr) = [city ++ ",", abbr])
    (h4 : lookupAbbrev (pyLower abbr) = none) :
    format_location_for_api x = city ++ ", " ++ abbr ∧
    format_location_for_api (format_location_for_api x)
      = (city ++ ",") ++ ", " ++ abbr ∧
    format_location_for_api (format_location_for_api x)
      ≠ format_location_for_api x := by
  have e1 : format_location_for_api x = city ++ ", " ++ abbr := by
    simp [format_location_for_api, h1, h2, pyJoin]
  have e2 : format_location_for_api (format_location_for_api x)
      = (city ++ ",") ++ ", " ++ abbr := by
    rw [e1]
    simp [format_location_for_api, h3, h4, pyJoin]
  refine ⟨e1, e2, ?_⟩
  rw [e2, e1]
  intro hcontra
  have hlen := congrArg String.length hcontra
  simp only [String.length_append] at hlen
  have ha : String.length "," = 1 := by decide
  have hb : String.length ", " = 2 := by decide
  omega

/-- Witness for C7's corrected statement at the spec's worked example. -/
theorem format_location_second_run_duplicates_comma_witness :
    format_location_for_api "Boston Massachusetts" = "Boston, MA" ∧
    format_location_for_api (format_location_for_api "Boston Massachusetts")
      = "Boston,, MA" := by
  have h := format_location_second_run_duplicates_comma
    "Boston Massachusetts" "Boston" "Massachusetts" "MA"
    (by decide) (by decide) (by decide) (by decide)
  exact ⟨h.1.trans (by decide), h.2.1.trans (by decide)⟩

/-! ## Claim C2 -/

/-- Claim C2 counterexample: when the locality-scoped query and the
nationwide fallback both parse to zero records, `search_clinical_trials`
returns the empty list — not real trials, not nationwide trials, and not
an error record. -/
theorem search_both_tiers_empty_returns_empty_list :
    (search_clinical_trials (fun _ => TransportOutcome.ok [])
      "breast cancer" "Boston Massachusetts" none none).trials = [] := rfl

/-- Claim C2 (corrected): the result is non-empty whenever the nationwide
tier cannot parse to zero records — local trials, nationwide trials after
an empty local tier, or a single synthetic error record on transport
failure; only a transport-successful nationwide response with zero parsed
records (after an empty local tier) produces the empty list. -/
theorem search_nonempty_unless_both_tiers_empty (registry : Registry)
    (cancer_type location : String) (stage : Option String) (age : Option AgeVal)
    (h : ∀ s2, registry (nationwideParams cancer_type) = TransportOutcome.ok s2 →
          parse_trials s2 location true ≠ []) :
    (search_clinical_trials registry cancer_type location stage age).trials ≠ [] := by
  unfold search_clinical_trials
  cases hreg : registry (scopedParams cancer_type location) with
  | ok studies =>
      simp only [hreg]
      by_cases hempty : (parse_trials studies location false).isEmpty
      · simp only [hempty, if_true]
        cases hreg2 : registry (nationwideParams cancer_type) with
        | ok studies2 => exact h studies2 hreg2
        | timeout => simp [get_error_response]
        | httpError => simp [get_error_response]
        | otherError => simp [get_error_response]
      · simp only [hempty, if_false]
        simpa [List.isEmpty_iff] using hempty
  | timeout => simp [hreg, get_error_response]
  | httpError => simp [hreg, get_error_response]
  | otherError => simp [hreg, get_error_response]

/-- A registry whose locality-scoped tier is empty and whose nationwide
tier times out. -/
def emptyThenTimeoutRegistry : Registry := fun p =>
  if p.locn.isSome then TransportOutcome.ok [] else TransportOutcome.timeout

/-- Witness for C2's corrected statement: with an empty local tier and a
timed-out nationwide tier the result is still non-empty. -/
theorem search_nonempty_unless_both_tiers_empty_witness :
    (search_clinical_trials emptyThenTimeoutRegistry
      "breast cancer" "Boston Massachusetts" none none).trials ≠ [] := by
  apply search_nonempty_unless_both_tiers_empty
  intro s2 h2
  simp [emptyThenTimeoutRegistry, nationwideParams] at h2

/-! ## Claim C4 -/

/-- Claim C4 (confirmed): when the locality-scoped request fails at the
transport level (timeout, non-2xx, malformed body), no further request is
issued — no retry, no nationwide fallback — no exception escapes (the
function is total), and the result is exactly one record with the
sentinel identifier and a non-empty diagnostic message. -/
theorem search_transport_failure_single_error_record (registry : Registry)
    (cancer_type location : String) (stage : Option String) (age : Option AgeVal)
    (h : (registry (scopedParams cancer_type location)).isFailure = true) :
    (search_clinical_trials registry cancer_type location stage age).queries
        = [scopedParams cancer_type location] ∧
    ∃ e msg, (search_clinical_trials registry cancer_type location stage age).trials = [e] ∧
      e.nct_id = "API_ERROR" ∧ e.message = some msg ∧ msg ≠ "" := by
  unfold search_clinical_trials
  cases hreg : registry (scopedParams cancer_type location) with
  | ok studies => rw [hreg] at h; simp [TransportOutcome.isFailure] at h
  | timeout =>
      simp only [hreg]
      exact ⟨by trivial, _, _, rfl, rfl, rfl, by decide⟩
  | httpError =>
      simp only [hreg]
      exact ⟨by trivial, _, _, rfl, rfl, rfl, by decide⟩
  | otherError =>
      simp only [hreg]
      exact ⟨by trivial, _, _, rfl, rfl, rfl, by decide⟩

/-- A registry that times out on every request. -/
def timeoutRegistry : Registry := fun _ => TransportOutcome.timeout

/-- Witness for C4 under a simulated timeout. -/
theorem search_transport_failure_single_error_record_witness :
    (search_clinical_trials timeoutRegistry "breast cancer" "Boston Massachusetts"
        none none).queries = [scopedParams "breast cancer" "Boston Massachusetts"] ∧
    ∃ e msg, (search_clinical_trials timeoutRegistry "breast cancer"
        "Boston Massachusetts" none none).trials = [e] ∧
      e.nct_id = "API_ERROR" ∧ e.message = some msg ∧ msg ≠ "" :=
  search_transport_failure_single_error_record timeoutRegistry
    "breast cancer" "Boston Massachusetts" none none rfl

/-! ## Claim C3 -/

/-- Claim C3 (confirmed): when the locality-scoped query succeeds and
parses to zero records, exactly one further query is issued, omitting the
locality parameter but agreeing on condition, status filter and page
size, and (when that fallback response also parses) every returned record
has `is_nationwide = true`; when the locality-scoped query parses to one
or more records, no second query is issued and every returned record has
`is_nationwide = false` — the two tiers never mix in one response. -/
theorem search_fallback_tiering (registry : Registry) (cancer_type location : String)
    (stage : Option String) (age : Option AgeVal) (s1 : List Study)
    (h1 : registry (scopedParams cancer_type location) = TransportOutcome.ok s1) :
    (parse_trials s1 location false = [] →
      ∀ s2, registry (nationwideParams cancer_type) = TransportOutcome.ok s2 →
        ∃ p2, (search_clinical_trials registry cancer_type location stage age).queries
              = [scopedParams cancer_type location, p2] ∧
          p2.locn = none ∧
          p2.cond = (scopedParams cancer_type location).cond ∧
          p2.overallStatus = (scopedParams cancer_type location).overallStatus ∧
          p2.pageSize = (scopedParams cancer_type location).pageSize ∧
          ∀ t ∈ (search_clinical_trials registry cancer_type location stage age).trials,
            t.is_nationwide = some true) ∧
    (parse_trials s1 location false ≠ [] →
      (search_clinical_trials registry cancer_type location stage age).queries
          = [scopedParams cancer_type location] ∧
      ∀ t ∈ (search_clinical_trials registry cancer_type location stage age).trials,
        t.is_nationwide = some false) := by
  constructor
  · intro hempty s2 h2
    have hsearch : search_clinical_trials registry cancer_type location stage age
        = { trials := parse_trials s2 location true
            queries := [scopedParams cancer_type location, nationwideParams cancer_type] } := by
      unfold search_clinical_trials
      simp [h1, h2, hempty, List.isEmpty_iff]
    refine ⟨nationwideParams cancer_type, ?_, rfl, rfl, rfl, rfl, ?_⟩
    · rw [hsearch]
    · rw [hsearch]
      exact parse_trials_flag s2 location true
  · intro hne
    have hsearch : search_clinical_trials registry cancer_type location stage age
        = { trials := parse_trials s1 location false
            queries := [scopedParams cancer_type location] } := by
      unfold search_clinical_trials
      simp [h1, List.isEmpty_iff, hne]
    refine ⟨by rw [hsearch], ?_⟩
    rw [hsearch]
    exact parse_trials_flag s1 location false

/-- A registry whose locality-scoped tier is empty and whose nationwide
tier returns one study. -/
def emptyThenOneStudyRegistry : Registry := fun p =>
  if p.locn.isSome then TransportOutcome.ok [] else TransportOutcome.ok [demoStudy]

/-- Witness for C3 on the fallback arm: an empty local tier issues exactly
the one nationwide query and every returned record is flagged nationwide. -/
theorem search_fallback_tiering_witness :
    ∃ p2, (search_clinical_trials emptyThenOneStudyRegistry
            "breast cancer" "Boston Massachusetts" none none).queries
          = [scopedParams "breast cancer" "Boston Massachusetts", p2] ∧
      p2.locn = none ∧
      p2.cond = (scopedParams "breast cancer" "Boston Massachusetts").cond ∧
      p2.overallStatus = (scopedParams "breast cancer" "Boston Massachusetts").overallStatus ∧
      p2.pageSize = (scopedParams "breast cancer" "Boston Massachusetts").pageSize ∧
      ∀ t ∈ (search_clinical_trials emptyThenOneStudyRegistry
              "breast cancer" "Boston Massachusetts" none none).trials,
        t.is_nationwide = some true := by
  have h := search_fallback_tiering emptyThenOneStudyRegistry
    "breast cancer" "Boston Massachusetts" none none [] (by decide)
  exact h.1 rfl [demoStudy] (by decide)

/-! ## Claim C8 -/

/-- The entities dictionary `extract_entities` returns when both models
fail: the default intent and nothing else. -/
def findTrialsEntities : Entities :=
  { intent := "find_trials", cancer_type := none, location := none,
    age := none, sex := none }

/-- Claim C8 counterexample: on a ready session with the NLU component
entirely unavailable, the message turn does not complete with a
clarification prompt — the route's call
`nlp.extract_entities(user_input, intake_context=...)` passes a keyword
argument the function does not accept, so the turn propagates a
`TypeError`. -/
theorem nlu_failure_turn_raises :
    handle_message ModelRun.notLoaded ModelRun.notLoaded
      (fun _ => TransportOutcome.ok [])
      (storeSet [] "test_user" demoReadyState) "test_user" "hello"
      = Except.error (PyErr.typeError
          "extract_entities() got an unexpected keyword argument intake_context") := rfl

/-- Claim C8 (corrected): NLU failures are caught inside the NLU service
and degrade to the default intent `"find_trials"` with no extracted
entities — but that default triggers a registry search with the stored
slots rather than a clarification prompt; and at the route boundary the
NLU call itself raises a `TypeError` (unexpected keyword argument), so
the turn as wired propagates an exception before the NLU service runs. -/
theorem nlu_failure_semantics (intentRun : ModelRun Nat)
    (nerRun : ModelRun (List (String × String))) (registry : Registry)
    (store : SessionStore) (uid msg : String) (state : ConversationState)
    (ct loc : String)
    (hi : intentRun.isFailure = true) (hn : nerRun.isFailure = true)
    (hs : storeGet store uid = some state)
    (hc : state.intake_complete = some true)
    (hct : state.cancer_type = some ct) (hloc : state.location = some loc) :
    extract_entities intentRun nerRun = findTrialsEntities ∧
    handle_message intentRun nerRun registry store uid msg
      = Except.error (PyErr.typeError
          "extract_entities() got an unexpected keyword argument intake_context") ∧
    merge_entities state findTrialsEntities = state ∧
    ∃ r, handle_message_dispatch registry findTrialsEntities state = Except.ok r ∧
      r.trials = some (search_clinical_trials registry ct loc state.stage state.age).trials ∧
      r.queries.head? = some (scopedParams ct loc) ∧
      r.state = state ∧
      r.response = "Here are some " ++ ct ++ " clinical trials in " ++ loc ++ ":" := by
  have hm : merge_entities state findTrialsEntities = state := by
    cases state
    rfl
  have hent : extract_entities intentRun nerRun = findTrialsEntities := by
    cases intentRun with
    | notLoaded =>
        cases nerRun with
        | notLoaded => rfl
        | raises => rfl
        | ok a => simp [ModelRun.isFailure] at hn
    | raises =>
        cases nerRun with
        | notLoaded => rfl
        | raises => rfl
        | ok a => simp [ModelRun.isFailure] at hn
    | ok a => simp [ModelRun.isFailure] at hi
  refine ⟨hent, ?_, hm, ?_⟩
  · unfold handle_message
    rw [hs]
    simp only [Option.getD_some, hc]
  · have hd : handle_message_dispatch registry findTrialsEntities state
        = Except.ok
            { response := "Here are some " ++ ct ++ " clinical trials in " ++ loc ++ ":"
              trials := some (search_clinical_trials registry ct loc state.stage state.age).trials
              queries := (search_clinical_trials registry ct loc state.stage state.age).queries
              state := state } := by
      unfold handle_message_dispatch
      rw [hm]
      simp only [hct, hloc]
      rfl
    refine ⟨_, hd, rfl, ?_, rfl, rfl⟩
    exact search_queries_head registry ct loc state.stage state.age

/-- Witness for C8's corrected statement on a concrete ready session with
both models unavailable. -/
theorem nlu_failure_semantics_witness :
    extract_entities (ModelRun.notLoaded : ModelRun Nat)
      (ModelRun.notLoaded : ModelRun (List (String × String))) = findTrialsEntities ∧
    handle_message ModelRun.notLoaded ModelRun.notLoaded timeoutRegistry
      (storeSet [] "u1" demoReadyState) "u1" "what can you do"
      = Except.error (PyErr.typeError
          "extract_entities() got an unexpected keyword argument intake_context") ∧
    merge_entities demoReadyState findTrialsEntities = demoReadyState ∧
    ∃ r, handle_message_dispatch timeoutRegistry findTrialsEntities demoReadyState
        = Except.ok r ∧
      r.trials = some (search_clinical_trials timeoutRegistry "breast cancer"
          "Boston Massachusetts" demoReadyState.stage demoReadyState.age).trials ∧
      r.queries.head? = some (scopedParams "breast cancer" "Boston Massachusetts") ∧
      r.state = demoReadyState ∧
      r.response = "Here are some " ++ "breast cancer" ++ " clinical trials in "
          ++ "Boston Massachusetts" ++ ":" :=
  nlu_failure_semantics ModelRun.notLoaded ModelRun.notLoaded timeoutRegistry
    (storeSet [] "u1" demoReadyState) "u1" "what can you do" demoReadyState
    "breast cancer" "Boston Massachusetts" rfl rfl rfl rfl rfl rfl

/-! ## Claim C9 -/

/-- An intake submission whose `cancer_type` is the empty string — the
pydantic model accepts it, and it leaves the session not query-ready. -/
def c9Intake : IntakeForm :=
  { user_id := "u9"
    cancer_type := ""
    stage := "stage 2"
    age := 45
    sex := "female"
    location := "Boston Massachusetts"
    comorbidities := none
    prior_treatments := none }

/-- The session state `c9Intake` produces. -/
def c9state : ConversationState :=
  { cancer_type := some ""
    stage := some "stage 2"
    age := some (AgeVal.int 45)
    sex := some "female"
    location := some "Boston Massachusetts"
    comorbidities := []
    prior_treatments := []
    intake_complete := some true }

/-- A registry that answers every request with an empty study list. -/
def okEmptyRegistry : Registry := fun _ => TransportOutcome.ok []

/-- Claim C9 counterexample: a reachable session that is not query-ready
(`is_complete` is false — its `cancer_type` is empty) still triggers a
registry search on a `find_trials` turn instead of falling through to the
clarification response; the dispatch never consults query-readiness. -/
theorem find_trials_searches_despite_not_query_ready :
    storeGet (submit_intake [] c9Intake).2 "u9" = some c9state ∧
    c9state.is_complete = false ∧
    ∃ r, handle_message_dispatch okEmptyRegistry findTrialsEntities c9state
        = Except.ok r ∧
      r.queries = [scopedParams "" "Boston Massachusetts", nationwideParams ""] ∧
      r.trials.isSome = true ∧
      r.response ≠ "I\x27m here to help you find clinical trials. What would you like to know?" := by
  refine ⟨by decide, by decide, ?_⟩
  refine ⟨_, rfl, by decide, by decide, by decide⟩

/-- Claim C9 (corrected): on every message turn whose extracted intent is
`find_trials` and that reaches the dispatch, the Trial Registry Client is
invoked unconditionally with the merged state's `cancer_type` and
`location` (and its `stage` and `age`) — no query-readiness check guards
the branch, and `is_complete` is never consulted. -/
theorem find_trials_dispatch_unconditional (registry : Registry)
    (entities : Entities) (state : ConversationState) (ct loc : String)
    (hint : entities.intent = "find_trials")
    (hct : (merge_entities state entities).cancer_type = some ct)
    (hloc : (merge_entities state entities).location = some loc) :
    ∃ r, handle_message_dispatch registry entities state = Except.ok r ∧
      r.queries = (search_clinical_trials registry ct loc
          (merge_entities state entities).stage
          (merge_entities state entities).age).queries ∧
      r.queries.head? = some (scopedParams ct loc) ∧
      r.trials = some (search_clinical_trials registry ct loc
          (merge_entities state entities).stage
          (merge_entities state entities).age).trials ∧
      r.state = merge_entities state entities := by
  have hd : handle_message_dispatch registry entities state
      = Except.ok
          { response := "Here are some " ++ ct ++ " clinical trials in " ++ loc ++ ":"
            trials := some (search_clinical_trials registry ct loc
                (merge_entities state entities).stage
                (merge_entities state entities).age).trials
            queries := (search_clinical_trials registry ct loc
                (merge_entities state entities).stage
                (merge_entities state entities).age).queries
            state := merge_entities state entities } := by
    unfold handle_message_dispatch
    rw [hint]
    simp only [hct, hloc]
    rfl
  refine ⟨_, hd, rfl, ?_, rfl, rfl⟩
  exact search_queries_head registry ct loc
    (merge_entities state entities).stage (merge_entities state entities).age

/-- Witness for C9's corrected statement at the reachable non-query-ready
session above. -/
theorem find_trials_dispatch_unconditional_witness :
    ∃ r, handle_message_dispatch okEmptyRegistry findTrialsEntities c9state
        = Except.ok r ∧
      r.queries = (search_clinical_trials okEmptyRegistry "" "Boston Massachusetts"
          (merge_entities c9state findTrialsEntities).stage
          (merge_entities c9state findTrialsEntities).age).queries ∧
      r.queries.head? = some (scopedParams "" "Boston Massachusetts") ∧
      r.trials = some (search_clinical_trials okEmptyRegistry "" "Boston Massachusetts"
          (merge_entities c9state findTrialsEntities).stage
          (merge_entities c9state findTrialsEntities).age).trials ∧
      r.state = merge_entities c9state findTrialsEntities :=
  find_trials_dispatch_unconditional okEmptyRegistry findTrialsEntities c9state
    "" "Boston Massachusetts" rfl rfl rfl
